import Mathlib

/-!
Verification of the bot-detection decision service in `src/main.py`
(`AICheckRequest`, `research_isp_with_llm`, `is_bot_classification`,
`ai_decision`).

The embedding is shallow: Python strings become Lean `String`
(ASCII-faithful: `lower()` and `\s` are modelled on their ASCII
fragments, which covers every string the program compares against),
Python `Optional[T]` fields become `Option T`, and the single external
LLM call is a parameter `llm : String → Option String` where `none`
models an exception / timeout / unusable response (the `except` branch
of `research_isp_with_llm`) and `some text` models a successful
response body.
-/

namespace TheJudge

/-- ASCII lower-casing of a character, as `str.lower()` acts on ASCII. -/
def lowerChar (c : Char) : Char :=
  if 'A' ≤ c ∧ c ≤ 'Z' then Char.ofNat (c.toNat + 32) else c

/-- ASCII lower-casing of a string (`reasoning.lower()`, `data.ua.lower()`). -/
def asciiLower (s : String) : String :=
  String.mk (s.data.map lowerChar)

/-- Substring test on character lists: Python's `needle in haystack`. -/
def subList (needle : List Char) : List Char → Bool
  | [] => needle.isEmpty
  | c :: cs => needle.isPrefixOf (c :: cs) || subList needle cs

/-- Python's `needle in haystack` for strings. -/
def strContains (haystack needle : String) : Bool :=
  subList needle.data haystack.data

/-- ASCII letter, what `[a-z]` matches under `re.IGNORECASE`. -/
def isAsciiLetter (c : Char) : Bool :=
  ('a' ≤ c && c ≤ 'z') || ('A' ≤ c && c ≤ 'Z')

/-- Case-insensitive literal match: consume `lit` from the front of the
input (comparing ASCII-lower-cased characters) and return the rest. -/
def matchLiteralCI : List Char → List Char → Option (List Char)
  | [], cs => some cs
  | _ :: _, [] => none
  | l :: ls, c :: cs =>
    if lowerChar c = lowerChar l then matchLiteralCI ls cs else none

/-- Attempt to match the regex `Conclusion:\s*\[([a-z]+)\]` (with
`re.IGNORECASE`) at the head of the input, returning the lower-cased
capture group on success.  The pieces `\s*` and `[a-z]+` are greedy and
followed by a character they cannot match (`[` resp. `]`), so the
regex engine's behaviour at a fixed start position is the
deterministic scan implemented here. -/
def matchTagAt (cs : List Char) : Option String :=
  match matchLiteralCI "conclusion:".data cs with
  | none => none
  | some rest =>
    match rest.dropWhile Char.isWhitespace with
    | '[' :: rest2 =>
      let letters := rest2.takeWhile isAsciiLetter
      if letters.isEmpty then none
      else
        match rest2.dropWhile isAsciiLetter with
        | ']' :: _ => some (String.mk (letters.map lowerChar))
        | _ => none
    | _ => none

/-- `re.search` of `Conclusion:\s*\[([a-z]+)\]`: try each start
position left to right and return the first (leftmost) match. -/
def searchConclusion : List Char → Option String
  | [] => none
  | c :: cs =>
    match matchTagAt (c :: cs) with
    | some tag => some tag
    | none => searchConclusion cs

/-- `conclusion_match.group(1).lower() if conclusion_match else "unknown"`
from `research_isp_with_llm`. -/
def extract_classification (reasoning : String) : String :=
  match searchConclusion reasoning.data with
  | some tag => tag
  | none => "unknown"

/-- The `residential_keywords` list of `research_isp_with_llm`. -/
def residential_keywords : List String :=
  ["residential", "consumer", "home users", "internet service", "mobile provider"]

/-- `research_isp_with_llm(isp)`, with the HF token and the external
call's behaviour made explicit.  `llm = none` is the `except` branch
(the call raised / timed out / had no usable content); `llm = some r`
is a successful response with content `r`.  Returns
`(classification, reasoning)` exactly as the Python function does. -/
def research_isp_with_llm (hfToken : String) (llm : Option String) (isp : String) :
    String × String :=
  if isp = "" || hfToken = "" then
    ("", "Missing required parameters")
  else
    match llm with
    | none => ("", "Classification Error")
    | some reasoning =>
      let classification := extract_classification reasoning
      if residential_keywords.any (fun kw => strContains (asciiLower reasoning) kw)
          && classification != "residential" then
        ("residential", reasoning ++ "\n[OVERRIDE: Corrected to residential based on analysis]")
      else
        (classification, reasoning)

/-- `is_bot_classification` from `src/main.py`. -/
def is_bot_classification (classification : String) : Bool :=
  (["microsoft", "security", "cloud", "vpn", "scraper"] : List String).contains classification

/-- The pydantic model `AICheckRequest`.  Every field is `Optional` in
the source, so each is an `Option`; the defaults mirror the source
(`headers` and `fingerprint` are never read by the decision logic and
are omitted). -/
structure AICheckRequest where
  ua : Option String := some ""
  supportsCookies : Option Bool := none
  jsEnabled : Option Bool := none
  screenRes : Option String := some ""
  lang : Option String := some ""
  timezone : Option String := some ""
  isp : Option String := some ""
  isBotUserAgent : Option Bool := some false
  isScraperISP : Option Bool := some false
  isIPAbuser : Option Bool := some false
  isSuspiciousTraffic : Option Bool := some false
  isDataCenterASN : Option Bool := some false
deriving Repr, DecidableEq

/-- Python truthiness of an optional bool (`None` and `False` are falsy). -/
def optBoolTruthy : Option Bool → Bool
  | none => false
  | some b => b

/-- Python truthiness of an optional string (`None` and `""` are falsy). -/
def optStrTruthy : Option String → Bool
  | none => false
  | some s => s != ""

/-- Python's `x or ""` on an optional string. -/
def optStrOrEmpty : Option String → String
  | none => ""
  | some s => s

/-- `any(cloudflare_flags.values())`: the disjunction of the five
abuse flags checked first in `ai_decision`. -/
def cloudflare_flags (data : AICheckRequest) : Bool :=
  optBoolTruthy data.isBotUserAgent || optBoolTruthy data.isScraperISP ||
  optBoolTruthy data.isIPAbuser || optBoolTruthy data.isSuspiciousTraffic ||
  optBoolTruthy data.isDataCenterASN

/-- The `bot_indicators` set of `ai_decision`. -/
def botIndicators : List String :=
  ["bot", "curl", "python", "wget", "scrapy", "headless", "phantom",
   "selenium", "spider", "zgrab", "nmap", "masscan", "automated"]

/-- The `valid_languages` set of `ai_decision`. -/
def validLanguages : List String :=
  ["en-US", "en-CA", "en-GB", "en", "fr", "es", "de", "fr-CA", "ja-JP"]

/-- `"no_js": not data.jsEnabled` (absent JS flag counts as disabled). -/
def no_js (data : AICheckRequest) : Bool := !optBoolTruthy data.jsEnabled

/-- `"no_cookies": not data.supportsCookies`. -/
def no_cookies (data : AICheckRequest) : Bool := !optBoolTruthy data.supportsCookies

/-- `"bot_ua": any(ind in ua for ind in bot_indicators)` over the
lower-cased user agent. -/
def bot_ua (data : AICheckRequest) : Bool :=
  botIndicators.any (fun ind => strContains (asciiLower (optStrOrEmpty data.ua)) ind)

/-- `"short_ua": len(data.ua or "") < 20`. -/
def short_ua (data : AICheckRequest) : Bool :=
  decide ((optStrOrEmpty data.ua).length < 20)

/-- `any(browser_checks.values())`: JS disabled, cookies unsupported,
a bot indicator in the lower-cased user agent, or user agent shorter
than 20 characters. -/
def browser_checks (data : AICheckRequest) : Bool :=
  no_js data || no_cookies data || bot_ua data || short_ua data

/-- `"invalid_resolution": data.screenRes in ("0x0", "1x1")` (a `None`
screen resolution is not a member, hence not degenerate). -/
def invalid_resolution (data : AICheckRequest) : Bool :=
  match data.screenRes with
  | some s => (["0x0", "1x1"] : List String).contains s
  | none => false

/-- `"unusual_language": data.lang not in valid_languages` (a `None`
language is not in the set, hence unusual). -/
def unusual_language (data : AICheckRequest) : Bool :=
  match data.lang with
  | some s => !(validLanguages.contains s)
  | none => true

/-- `"missing_timezone": not data.timezone`. -/
def missing_timezone (data : AICheckRequest) : Bool := !optStrTruthy data.timezone

/-- `any(suspicious_attributes.values())`. -/
def suspicious_attributes (data : AICheckRequest) : Bool :=
  invalid_resolution data || unusual_language data || missing_timezone data

/-- The decision record returned by `ai_decision`.  `oracleInvoked`
instruments whether control entered the `if data.isp:` branch body
(i.e. whether `research_isp_with_llm` was called); `aiReasoning` is
the optional `ai_reasoning` field of the JSON response. -/
structure Decision where
  verdict : String
  reason : String
  oracleInvoked : Bool
  aiReasoning : Option String
deriving Repr, DecidableEq

/-- Steps 3–5 of `ai_decision` (browser fingerprint checks, suspicious
attributes, verified human), reached when neither the abuse flags nor
the ISP analysis returned early. -/
def browser_attr_decision (data : AICheckRequest) (invoked : Bool) : Decision :=
  if browser_checks data then
    ⟨"bot", "Automation characteristics detected", invoked, none⟩
  else if suspicious_attributes data then
    ⟨"uncertain", "Suspicious client characteristics", invoked, none⟩
  else
    ⟨"human", "All checks passed", invoked, none⟩

/-- The full `ai_decision` cascade of `src/main.py`, parameterised by
the HF token and the external LLM behaviour. -/
def ai_decision (hfToken : String) (llm : String → Option String)
    (data : AICheckRequest) : Decision :=
  if cloudflare_flags data then
    ⟨"bot", "Cloudflare security flags triggered", false, none⟩
  else if optStrTruthy data.isp then
    let isp := optStrOrEmpty data.isp
    let res := research_isp_with_llm hfToken (llm isp) isp
    if res.fst = "" then
      ⟨"uncertain", "ISP classification service unavailable", true, some res.snd⟩
    else if is_bot_classification res.fst then
      ⟨"bot", "Classified as " ++ res.fst ++ " network", true, some res.snd⟩
    else
      browser_attr_decision data true
  else
    browser_attr_decision data false

/-- An inbound JSON payload: the fields of `AICheckRequest` plus a
possible `honeypotVisited` key.  `AICheckRequest` declares no
`honeypotVisited` field, so pydantic's default configuration drops the
key when validating the body: parsing keeps only `base`. -/
structure IncomingPayload where
  base : AICheckRequest
  honeypotVisited : Option Bool := none

/-- Pydantic validation of the request body: unknown keys
(in particular `honeypotVisited`) are ignored. -/
def parsePayload (p : IncomingPayload) : AICheckRequest := p.base

/-! Concrete scenarios and mocked LLM behaviours used by the theorems. -/

/-- A request that passes every implemented check: realistic browser
fields, a timezone, and an empty `isp` (so the oracle is skipped). -/
def cleanRequest : AICheckRequest :=
  { ua := some "Mozilla/5.0 (Windows NT 10.0; Win64; x64) AppleWebKit/537.36",
    supportsCookies := some true, jsEnabled := some true,
    screenRes := some "1920x1080", lang := some "en-US",
    timezone := some "America/New_York" }

/-- Example scenario 2 of the spec, every unlisted field at its
default (in particular `timezone = ""`). -/
def scenario2 : AICheckRequest :=
  { ua := some "Mozilla/5.0 (Windows NT 10.0; Win64; x64) AppleWebKit/537.36",
    supportsCookies := some true, jsEnabled := some true,
    screenRes := some "1920x1080", lang := some "en-US",
    isp := some "Comcast Cable" }

/-- Scenario 2 with a non-empty timezone added. -/
def scenario2tz : AICheckRequest :=
  { scenario2 with timezone := some "America/New_York" }

/-- A clean request whose ISP is set, for exercising the oracle path. -/
def scenarioTelco : AICheckRequest :=
  { cleanRequest with isp := some "Obscure Regional Telco" }

/-- A clean request with a cloud-provider ISP. -/
def scenarioCloud : AICheckRequest :=
  { cleanRequest with isp := some "Amazon AWS" }

/-- Mocked oracle: concludes `[residential]` (known-safe). -/
def residentialLLM : String → Option String := fun _ => some "Conclusion: [residential]"

/-- Mocked oracle: concludes `[unknown]` (the indeterminate tag). -/
def unknownLLM : String → Option String := fun _ => some "Conclusion: [unknown]"

/-- Mocked oracle: concludes `[cloud]` (known-unsafe). -/
def cloudLLM : String → Option String := fun _ => some "Conclusion: [cloud]"

/-- Mocked oracle failure: the external call raises / times out. -/
def failingLLM : String → Option String := fun _ => none

/-- A payload carrying `honeypotVisited = true` over an otherwise
clean request, and an abuse-flagged payload with it false. -/
def honeypotPayload : IncomingPayload :=
  { base := cleanRequest, honeypotVisited := some true }

/-- A payload with `isDataCenterASN` set and `honeypotVisited = false`. -/
def flaggedPayload : IncomingPayload :=
  { base := { cleanRequest with isDataCenterASN := some true },
    honeypotVisited := some false }

/-! Theorems for the claims. -/

/-- C1 counterexample: a request whose `honeypotVisited` key is true
but which passes every implemented check is classified `human`, not
`bot` — the claimed honeypot rule does not exist in `ai_decision`. -/
theorem C1_counterexample :
    (ai_decision "token" failingLLM (parsePayload honeypotPayload)).verdict = "human"
    ∧ "human" ≠ "bot" :=
  ⟨rfl, by decide⟩

/-- C1 (amended): `AICheckRequest` declares no `honeypotVisited`
field, so pydantic drops the key from the body and the decision is
independent of it; there is no honeypot rule in the cascade. -/
theorem C1_honeypot_ignored (hfToken : String) (llm : String → Option String)
    (base : AICheckRequest) (b₁ b₂ : Option Bool) :
    ai_decision hfToken llm (parsePayload { base := base, honeypotVisited := b₁ }) =
    ai_decision hfToken llm (parsePayload { base := base, honeypotVisited := b₂ }) := rfl

/-- C2 counterexample: on the spec's own example text the extraction
yields `unknown`, not `safe` — the code searches for the literal
marker `Conclusion:` before a bracketed tag, and `concludes [safe]`
does not carry it. -/
theorem C2_counterexample :
    extract_classification "...mentions [unsafe] earlier but concludes [safe]" = "unknown"
    ∧ "unknown" ≠ "safe" :=
  ⟨rfl, by decide⟩

/-- C2 (amended): extraction takes the first (leftmost) match of the
case-insensitive pattern `Conclusion:\s*\[([a-z]+)\]`, lower-casing
the captured tag; text with no `Conclusion: [tag]` marker — such as
the spec's example — yields `unknown`, and when two markers occur the
first, not the last, wins. -/
theorem C2_first_conclusion_tag :
    extract_classification "...mentions [unsafe] earlier but concludes [safe]" = "unknown"
    ∧ extract_classification "Conclusion: [unsafe] ... later Conclusion: [safe]" = "unsafe"
    ∧ extract_classification "mentions [unsafe] earlier but Conclusion: [SAFE]" = "safe" :=
  ⟨rfl, rfl, rfl⟩

/-- C3 counterexample: example scenario 2 with its unlisted fields at
their defaults leaves `timezone = ""`, so `missing_timezone` fires and
the verdict is `uncertain`, not `human`. -/
theorem C3_counterexample :
    (ai_decision "token" residentialLLM scenario2).verdict = "uncertain"
    ∧ "uncertain" ≠ "human" :=
  ⟨rfl, by decide⟩

/-- C3 (amended): scenario 2 additionally needs a non-empty timezone;
with one supplied, the oracle's `residential` answer is accepted and
the verdict is `human`. -/
theorem C3_with_timezone :
    (ai_decision "token" residentialLLM scenario2tz).verdict = "human" := rfl

/-- C4 counterexample: an indeterminate oracle answer (`unknown`) is
not mapped to `captcha`/`uncertain` (nor to `bot`): on a request whose
remaining signals are clean the cascade falls through the later rules
and returns `human`. -/
theorem C4_counterexample :
    (ai_decision "token" unknownLLM scenarioTelco).verdict = "human"
    ∧ "human" ≠ "uncertain" ∧ "human" ≠ "captcha" ∧ "human" ≠ "bot" :=
  ⟨rfl, by decide, by decide, by decide⟩

/-- C4 (amended): when the oracle classifies the ISP as `unknown`, the
cascade treats it like a safe category and proceeds to the browser
heuristics and attribute checks, which alone determine the verdict;
only an empty classification (oracle failure) yields `uncertain`. -/
theorem C4_unknown_proceeds (hfToken : String) (llm : String → Option String)
    (data : AICheckRequest)
    (hf : cloudflare_flags data = false)
    (hisp : optStrTruthy data.isp = true)
    (hcls : (research_isp_with_llm hfToken (llm (optStrOrEmpty data.isp))
      (optStrOrEmpty data.isp)).fst = "unknown") :
    ai_decision hfToken llm data = browser_attr_decision data true := by
  simp [ai_decision, hf, hisp, hcls, is_bot_classification]

/-- Witness for C4's amended theorem at a concrete request and oracle. -/
theorem C4_unknown_proceeds_witness :
    ai_decision "token" unknownLLM scenarioTelco = browser_attr_decision scenarioTelco true :=
  C4_unknown_proceeds "token" unknownLLM scenarioTelco (by decide) (by decide) (by decide)

/-- C5: for every token, every oracle behaviour (including failure)
and every request, `ai_decision` yields exactly one verdict from the
enumerated set — the cascade is total. -/
theorem C5_verdict_total (hfToken : String) (llm : String → Option String)
    (data : AICheckRequest) :
    (ai_decision hfToken llm data).verdict = "bot" ∨
    (ai_decision hfToken llm data).verdict = "uncertain" ∨
    (ai_decision hfToken llm data).verdict = "human" := by
  unfold ai_decision browser_attr_decision
  dsimp only
  split
  · exact Or.inl rfl
  split
  · split
    · exact Or.inr (Or.inl rfl)
    split
    · exact Or.inl rfl
    split
    · exact Or.inl rfl
    split
    · exact Or.inr (Or.inl rfl)
    · exact Or.inr (Or.inr rfl)
  · split
    · exact Or.inl rfl
    split
    · exact Or.inr (Or.inl rfl)
    · exact Or.inr (Or.inr rfl)

/-- C6: with `honeypotVisited` absent or false, any one of the five
abuse flags forces verdict `bot`; the oracle is not consulted
(`oracleInvoked = false`) and the decision is independent of the
oracle's behaviour. -/
theorem C6_abuse_flags_bot (hfToken : String) (llm llm₂ : String → Option String)
    (p : IncomingPayload)
    (_hhp : p.honeypotVisited = none ∨ p.honeypotVisited = some false)
    (hflag : optBoolTruthy p.base.isBotUserAgent = true ∨
      optBoolTruthy p.base.isScraperISP = true ∨
      optBoolTruthy p.base.isIPAbuser = true ∨
      optBoolTruthy p.base.isSuspiciousTraffic = true ∨
      optBoolTruthy p.base.isDataCenterASN = true) :
    (ai_decision hfToken llm (parsePayload p)).verdict = "bot" ∧
    (ai_decision hfToken llm (parsePayload p)).oracleInvoked = false ∧
    ai_decision hfToken llm (parsePayload p) = ai_decision hfToken llm₂ (parsePayload p) := by
  have hcf : cloudflare_flags (parsePayload p) = true := by
    unfold cloudflare_flags parsePayload
    rcases hflag with h | h | h | h | h <;> simp [parsePayload] at h ⊢ <;> simp [h]
  refine ⟨?_, ?_, ?_⟩ <;> simp [ai_decision, hcf]

/-- Witness for C6 at a concrete abuse-flagged payload. -/
theorem C6_abuse_flags_bot_witness :
    (ai_decision "token" failingLLM (parsePayload flaggedPayload)).verdict = "bot" :=
  (C6_abuse_flags_bot "token" failingLLM residentialLLM flaggedPayload
    (Or.inr (by decide))
    (Or.inr (Or.inr (Or.inr (Or.inr (by decide)))))).1

/-- C7: with no abuse flag set and a non-empty ISP, a known-unsafe
oracle category (`microsoft`, `security`, `cloud`, `vpn`, `scraper`)
forces verdict `bot` for every request — the browser-heuristic and
locale rules are never reached. -/
theorem C7_unsafe_category_bot (hfToken : String) (llm : String → Option String)
    (data : AICheckRequest)
    (hf : cloudflare_flags data = false)
    (hisp : optStrTruthy data.isp = true)
    (hcls : is_bot_classification (research_isp_with_llm hfToken
      (llm (optStrOrEmpty data.isp)) (optStrOrEmpty data.isp)).fst = true) :
    (ai_decision hfToken llm data).verdict = "bot" := by
  have hne : (research_isp_with_llm hfToken (llm (optStrOrEmpty data.isp))
      (optStrOrEmpty data.isp)).fst ≠ "" := by
    intro h0
    rw [h0] at hcls
    exact absurd hcls (by decide)
  simp [ai_decision, hf, hisp, hne, hcls]

/-- Witness for C7: a cloud-provider ISP on an otherwise clean request. -/
theorem C7_unsafe_category_bot_witness :
    (ai_decision "token" cloudLLM scenarioCloud).verdict = "bot" :=
  C7_unsafe_category_bot "token" cloudLLM scenarioCloud (by decide) (by decide) (by decide)

/-- Steps 3–5 never change the instrumentation flag: they report the
oracle as invoked exactly when the ISP branch was entered. -/
theorem browser_attr_decision_invoked (data : AICheckRequest) (inv : Bool) :
    (browser_attr_decision data inv).oracleInvoked = inv := by
  unfold browser_attr_decision
  split
  · rfl
  split <;> rfl

/-- C8: with an empty (or missing) ISP the oracle is never invoked and
the decision does not depend on the oracle at all; with a non-empty
ISP and a failing external call the cascade still returns the
complete `uncertain` verdict, never an error. -/
theorem C8_oracle_skip_and_fallback (hfToken : String) (llm llm₂ : String → Option String)
    (data : AICheckRequest) :
    (optStrTruthy data.isp = false →
      (ai_decision hfToken llm data).oracleInvoked = false ∧
      ai_decision hfToken llm data = ai_decision hfToken llm₂ data) ∧
    (cloudflare_flags data = false → optStrTruthy data.isp = true →
      llm (optStrOrEmpty data.isp) = none →
      (ai_decision hfToken llm data).verdict = "uncertain" ∧
      (ai_decision hfToken llm data).reason = "ISP classification service unavailable") := by
  constructor
  · intro hisp
    rcases Bool.eq_false_or_eq_true (cloudflare_flags data) with hcf | hcf <;>
      constructor <;> simp [ai_decision, hcf, hisp, browser_attr_decision_invoked]
  · intro hcf hisp hfail
    have hres : (research_isp_with_llm hfToken (llm (optStrOrEmpty data.isp))
        (optStrOrEmpty data.isp)).fst = "" := by
      rw [hfail]
      unfold research_isp_with_llm
      split <;> rfl
    constructor <;> simp [ai_decision, hcf, hisp, hres]

/-- Witness for C8: empty-ISP request never invokes the oracle, and a
failing oracle on a non-empty ISP yields `uncertain`. -/
theorem C8_oracle_skip_and_fallback_witness :
    (ai_decision "token" failingLLM cleanRequest).oracleInvoked = false ∧
    (ai_decision "token" failingLLM scenarioTelco).verdict = "uncertain" :=
  ⟨((C8_oracle_skip_and_fallback "token" failingLLM residentialLLM cleanRequest).1
      (by decide)).1,
   ((C8_oracle_skip_and_fallback "token" failingLLM residentialLLM scenarioTelco).2
      (by decide) (by decide) rfl).1⟩

/-- C9: on a successful oracle response whose lower-cased text
mentions any residential keyword while the extracted conclusion tag is
not `residential`, `research_isp_with_llm` overrides the
classification to `residential` — even when the concluding tag is a
known-unsafe category. -/
theorem C9_residential_override (hfToken isp text : String)
    (htok : hfToken ≠ "") (hisp : isp ≠ "")
    (hkw : residential_keywords.any (fun kw => strContains (asciiLower text) kw) = true)
    (hcls : extract_classification text ≠ "residential") :
    (research_isp_with_llm hfToken (some text) isp).fst = "residential" := by
  simp [research_isp_with_llm, htok, hisp, hkw, hcls]

/-- Witness for C9: a response concluding `[cloud]` whose reasoning
mentions home users is returned as `residential`. -/
theorem C9_residential_override_witness :
    (research_isp_with_llm "token"
      (some "Serves home users. Conclusion: [cloud]") "Amazon AWS").fst = "residential" :=
  C9_residential_override "token" "Amazon AWS" "Serves home users. Conclusion: [cloud]"
    (by decide) (by decide) (by decide) (by decide)

/-- A `human` verdict out of steps 3–5 means neither the browser
checks nor the suspicious-attribute checks fired. -/
theorem browser_attr_human (data : AICheckRequest) (inv : Bool)
    (h : (browser_attr_decision data inv).verdict = "human") :
    browser_checks data = false ∧ suspicious_attributes data = false := by
  unfold browser_attr_decision at h
  cases h1 : browser_checks data with
  | true => rw [h1] at h; simp at h
  | false =>
    rw [h1] at h
    cases h2 : suspicious_attributes data with
    | true => rw [h2] at h; simp at h
    | false => exact ⟨rfl, rfl⟩

/-- A `human` verdict out of the full cascade means control reached
steps 3–5 and both of their checks came back clean. -/
theorem ai_decision_human (hfToken : String) (llm : String → Option String)
    (data : AICheckRequest)
    (h : (ai_decision hfToken llm data).verdict = "human") :
    browser_checks data = false ∧ suspicious_attributes data = false := by
  unfold ai_decision at h
  cases hcf : cloudflare_flags data with
  | true => rw [hcf] at h; simp at h
  | false =>
    rw [hcf] at h
    simp only [Bool.false_eq_true, if_false] at h
    cases hisp : optStrTruthy data.isp with
    | false =>
      rw [hisp] at h
      simp only [Bool.false_eq_true, if_false] at h
      exact browser_attr_human data false h
    | true =>
      rw [hisp] at h
      simp only [if_true] at h
      by_cases h0 : (research_isp_with_llm hfToken (llm (optStrOrEmpty data.isp))
          (optStrOrEmpty data.isp)).fst = ""
      · rw [if_pos h0] at h
        simp at h
      · rw [if_neg h0] at h
        cases hbc : is_bot_classification
            (research_isp_with_llm hfToken (llm (optStrOrEmpty data.isp))
              (optStrOrEmpty data.isp)).fst with
        | true => rw [hbc] at h; simp at h
        | false =>
          rw [hbc] at h
          simp only [Bool.false_eq_true, if_false] at h
          exact browser_attr_human data true h

/-- C10: a `human` verdict implies every individual check passed — JS
enabled, cookies supported, a user agent at least 20 characters long
containing no bot indicator, a non-degenerate screen resolution, a
language from the nine-element allow-list, and a non-empty timezone;
in particular neither an empty language nor an empty (or absent)
timezone can ever yield `human`. -/
theorem C10_human_requires_all_checks (hfToken : String) (llm : String → Option String)
    (data : AICheckRequest)
    (h : (ai_decision hfToken llm data).verdict = "human") :
    no_js data = false ∧ no_cookies data = false ∧
    bot_ua data = false ∧ short_ua data = false ∧
    invalid_resolution data = false ∧ unusual_language data = false ∧
    missing_timezone data = false ∧
    data.lang ≠ some "" ∧ data.timezone ≠ none ∧ data.timezone ≠ some "" := by
  obtain ⟨hb, hs⟩ := ai_decision_human hfToken llm data h
  rw [browser_checks, Bool.or_eq_false_iff, Bool.or_eq_false_iff,
    Bool.or_eq_false_iff] at hb
  obtain ⟨⟨⟨hjs, hck⟩, hua⟩, hlen⟩ := hb
  rw [suspicious_attributes, Bool.or_eq_false_iff, Bool.or_eq_false_iff] at hs
  obtain ⟨⟨hres, hlang⟩, htz⟩ := hs
  refine ⟨hjs, hck, hua, hlen, hres, hlang, htz, ?_, ?_, ?_⟩
  · intro he
    rw [unusual_language, he] at hlang
    exact absurd hlang (by decide)
  · intro he
    rw [missing_timezone, he] at htz
    exact absurd htz (by decide)
  · intro he
    rw [missing_timezone, he] at htz
    exact absurd htz (by decide)

/-- Witness for C10 at a concrete request that is classified `human`. -/
theorem C10_human_requires_all_checks_witness :
    no_js cleanRequest = false ∧ no_cookies cleanRequest = false ∧
    bot_ua cleanRequest = false ∧ short_ua cleanRequest = false ∧
    invalid_resolution cleanRequest = false ∧ unusual_language cleanRequest = false ∧
    missing_timezone cleanRequest = false ∧
    cleanRequest.lang ≠ some "" ∧ cleanRequest.timezone ≠ none ∧
    cleanRequest.timezone ≠ some "" :=
  C10_human_requires_all_checks "token" failingLLM cleanRequest rfl

end TheJudge
